import Mathlib

/-!
Shallow embedding of `src/siem_desktop_app/app.py` (SIEM alert prioritization
dashboard) and proofs about the claims of its specification.

The in-scope logic of the program is: the CSV path fallback search
(`get_csv_path`, lines 11-30, and the try/except at lines 33-36), the column
normalizer (lines 40-69), the risk classifier `compute_risk_level`
(lines 72-82), the module-level classification pipeline (lines 84-86), the
`MITRE_MAP` lookup (lines 89-97 and 217), the explanation function
`ml_explanation` (lines 100-115), and the shuffled display view `df_view`
(line 183).

Python floats are modelled by `PyFloat`: a finite value is an exact rational
(a parsed decimal literal denotes the same ordering of scores against the
thresholds 0.70 / 0.45 / 0.75 in either representation), plus `nan`, `inf`,
`ninf` for the special values, whose comparison behaviour (every comparison
with `nan` is false) matters for the pipeline because pandas reads a missing
field as NaN. Rationals are always built with `mkRat` over integer
arithmetic so that every definition evaluates by kernel reduction.
-/

namespace SiemApp

/-- Model of a Python float: an exact rational, or one of the special values
NaN, +inf, -inf. -/
inductive PyFloat where
  | finite (q : ℚ)
  | nan
  | inf
  | ninf
deriving DecidableEq, Repr

/-- Python `x >= q` for a float `x` and a finite threshold `q`: any
comparison with NaN is false, `inf >= q` is true, `-inf >= q` is false. -/
def PyFloat.ge (x : PyFloat) (q : ℚ) : Bool :=
  match x with
  | .finite v => decide (q ≤ v)
  | .nan => false
  | .inf => true
  | .ninf => false

/-- Unary negation on the float model (used for a leading minus sign when
parsing; Python float("-nan") is still NaN). -/
def PyFloat.neg : PyFloat → PyFloat
  | .finite q => .finite (-q)
  | .nan => .nan
  | .inf => .ninf
  | .ninf => .inf

/-- Numeric value of a list of decimal digit characters. -/
def digitsVal (cs : List Char) : ℕ :=
  cs.foldl (fun a c => a * 10 + (c.toNat - 48)) 0

/-- Whitespace for Python str.strip(). -/
def isPySpace (c : Char) : Bool :=
  c = ' ' || c = '\t' || c = '\n' || c = '\r' || c = '\x0b' || c = '\x0c'

/-- Strip leading and trailing whitespace from a character list. -/
def stripChars (cs : List Char) : List Char :=
  ((cs.dropWhile isPySpace).reverse.dropWhile isPySpace).reverse

/-- Split a character list on a separator character (like str.split). -/
def splitOnChar (sep : Char) : List Char → List (List Char)
  | [] => [[]]
  | c :: cs =>
    match splitOnChar sep cs with
    | [] => [[]]
    | h :: t => if c = sep then [] :: h :: t else (c :: h) :: t

/-- A nonempty all-digit character list, or failure. -/
def parseNatDigits (cs : List Char) : Option ℕ :=
  if cs.isEmpty || !cs.all Char.isDigit then none else some (digitsVal cs)

/-- Mantissa of a Python float literal: `digits`, `digits.digits`,
`digits.` or `.digits` (at least one digit in total), as an exact
numerator/denominator pair. -/
def parseMantissa (cs : List Char) : Option (ℕ × ℕ) :=
  match splitOnChar '.' cs with
  | [i] => (parseNatDigits i).map (fun n => (n, 1))
  | [i, f] =>
    if (i.isEmpty && f.isEmpty) || !i.all Char.isDigit || !f.all Char.isDigit then none
    else some (digitsVal i * 10 ^ f.length + digitsVal f, 10 ^ f.length)
  | _ => none

/-- Exponent part of a Python float literal: optionally signed digits. -/
def parseExp (cs : List Char) : Option ℤ :=
  match cs with
  | '+' :: rest => (parseNatDigits rest).map (fun n => (n : ℤ))
  | '-' :: rest => (parseNatDigits rest).map (fun n => -(n : ℤ))
  | _ => (parseNatDigits cs).map (fun n => (n : ℤ))

/-- Exact value of mantissa times 10 to a signed exponent. -/
def mantissaExpToRat (m : ℕ × ℕ) (e : ℤ) : ℚ :=
  match e with
  | .ofNat k => mkRat (m.1 * 10 ^ k) m.2
  | .negSucc k => mkRat m.1 (m.2 * 10 ^ (k + 1))

/-- Unsigned body of a Python float string (already lower-cased): `inf`,
`infinity`, `nan`, or a decimal mantissa with optional exponent. -/
def parseUnsignedFloat (cs : List Char) : Option PyFloat :=
  if cs = "inf".toList ∨ cs = "infinity".toList then some .inf
  else if cs = "nan".toList then some .nan
  else
    match splitOnChar 'e' cs with
    | [m] => (parseMantissa m).map (fun p => .finite (mkRat p.1 p.2))
    | [m, ex] =>
      match parseMantissa m, parseExp ex with
      | some mv, some ev => some (.finite (mantissaExpToRat mv ev))
      | _, _ => none
    | _ => none

/-- Model of the Python built-in `float()` applied to a string: surrounding
whitespace is stripped, the match is case-insensitive, an optional single
sign precedes the body. Returns `none` exactly when Python raises
`ValueError`. (Digit-group underscores are not modelled; no input considered
here uses them.) -/
def pyFloatOfString (s : String) : Option PyFloat :=
  match (stripChars s.toList).map Char.toLower with
  | '+' :: rest => parseUnsignedFloat rest
  | '-' :: rest => (parseUnsignedFloat rest).map PyFloat.neg
  | t => parseUnsignedFloat t

/-- A Python value that can reach `compute_risk_level`: a float or a
string. -/
inductive PyVal where
  | num (x : PyFloat)
  | str (s : String)
deriving DecidableEq

/-- The `float(score)` call at line 74: identity on floats, string parsing
on strings, `none` when Python raises. -/
def pyFloat? : PyVal → Option PyFloat
  | .num x => some x
  | .str s => pyFloatOfString s

/-- `compute_risk_level` (app.py lines 72-82): coerce the score with
`float()`, returning "LOW" if that raises; then "HIGH" for score >= 0.70,
"MEDIUM" for score >= 0.45, else "LOW". The thresholds `mkRat 70 100` and
`mkRat 45 100` are the exact values of the literals 0.70 and 0.45. -/
def compute_risk_level (score : PyVal) : String :=
  match pyFloat? score with
  | none => "LOW"
  | some x =>
    if x.ge (mkRat 70 100) then "HIGH"
    else if x.ge (mkRat 45 100) then "MEDIUM"
    else "LOW"

example : compute_risk_level (.num (.finite (mkRat 7 10))) = "HIGH" := by decide
example : compute_risk_level (.num (.finite (mkRat 69 100))) = "MEDIUM" := by decide
example : compute_risk_level (.num .nan) = "LOW" := by decide
example : compute_risk_level (.num .inf) = "HIGH" := by decide
example : compute_risk_level (.str "0.8") = "HIGH" := by decide
example : compute_risk_level (.str " -1E2 ") = "LOW" := by decide
example : compute_risk_level (.str "HIGH") = "LOW" := by decide
example : compute_risk_level (.str "abc") = "LOW" := by decide
example : compute_risk_level (.str "nan") = "LOW" := by decide

/-- `ml_explanation` (app.py lines 100-115): three canned explanation-text
lists selected by score band; the thresholds in the source are 0.75
(`mkRat 75 100`) and 0.45 (`mkRat 45 100`). -/
def ml_explanation (score : PyFloat) : List String :=
  if score.ge (mkRat 75 100) then
    ["Strong privilege escalation signal",
     "Off-hours administrative activity",
     "Multiple failed authentication attempts"]
  else if score.ge (mkRat 45 100) then
    ["Suspicious behavior detected",
     "Moderate anomaly score"]
  else
    ["Low-confidence anomaly",
     "Likely benign activity"]

/-- `RISK_ALIASES` (app.py line 40). -/
def RISK_ALIASES : List String :=
  ["risk_score", "risk", "score", "anomaly_score", "severity_score"]

/-- The alias search loop of app.py lines 42-46: `found_risk_col` is the
first element of `RISK_ALIASES` that occurs among the data columns, if
any. -/
def found_risk_col (cols : List String) : Option String :=
  RISK_ALIASES.find? (fun a => cols.contains a)

/-- Outcome of the module-level schema checks: either the normalized column
list, or a blocking error dialog (title, message) followed by process exit
with the given status. -/
inductive SchemaResult where
  | ok (cols : List String)
  | errorDialog (title msg : String) (exitStatus : ℕ)
deriving DecidableEq

/-- `required_cols` (app.py line 61). -/
def required_cols : List String :=
  ["alert_type", "user", "destination_host", "risk_score"]

/-- `df.rename(columns={found_risk_col: "risk_score"})` (app.py line 58):
every column equal to the found alias is renamed to the canonical name. -/
def rename_risk (cols : List String) (found : String) : List String :=
  cols.map (fun c => if c = found then "risk_score" else c)

/-- The module-level schema normalization and validation of app.py
lines 42-69: locate a risk alias (error dialog and exit 1 listing the
accepted aliases if none), rename it to `risk_score`, then check the
required columns (error dialog and exit 1 listing the missing names if any
are absent). -/
def schema_normalize (cols : List String) : SchemaResult :=
  match found_risk_col cols with
  | none =>
    .errorDialog "CSV Error"
      ("No risk score column found.\n\nExpected one of:\n" ++
        String.intercalate ", " RISK_ALIASES) 1
  | some found =>
    let cols2 := rename_risk cols found
    let missing := required_cols.filter (fun c => !cols2.contains c)
    if missing.isEmpty then .ok cols2
    else
      .errorDialog "CSV Error"
        ("Missing required columns:\n" ++ String.intercalate ", " missing) 1

/-- `MITRE_MAP` (app.py lines 89-97), as an association list in source
order. -/
def MITRE_MAP : List (String × String × String) :=
  [("PRIV_ESC", "Privilege Escalation", "T1068"),
   ("BRUTE_FORCE", "Credential Access", "T1110"),
   ("LATERAL_MOVE", "Lateral Movement", "T1021"),
   ("DATA_EXFIL", "Exfiltration", "T1041"),
   ("MALWARE_EXEC", "Execution", "T1059"),
   ("PORT_SCAN", "Discovery", "T1046"),
   ("AUTH_FAILURE", "Credential Access", "T1110")]

/-- `MITRE_MAP.get(row["alert_type"], ("Unknown", "N/A"))` (app.py
line 217). -/
def mitre_lookup (code : String) : String × String :=
  match MITRE_MAP.find? (fun e => e.1 = code) with
  | some e => e.2
  | none => ("Unknown", "N/A")

/-- Locations of the CSV path search: the filesystem state the program can
observe, as the set of filenames present in the PyInstaller resource
directory (when `sys._MEIPASS` is set), the executable/script directory,
and the current working directory. -/
structure FileEnv where
  meipass : Option (List String)
  exeDir : List String
  cwd : List String

/-- Which location `get_csv_path` resolved to. -/
inductive CsvLoc where
  | meipassLoc
  | exeLoc
  | cwdLoc
deriving DecidableEq, Repr

/-- The guard of app.py lines 12-15: `sys._MEIPASS` exists and the file is
present in the bundled resource directory. -/
def meipassHas (env : FileEnv) (filename : String) : Bool :=
  match env.meipass with
  | some files => files.contains filename
  | none => false

/-- `get_csv_path` (app.py lines 11-30): try the bundled resource directory
(only when `sys._MEIPASS` exists), then the executable/script directory,
then the current working directory; `.error` models the raised
`FileNotFoundError` (no dialog). -/
def get_csv_path (env : FileEnv) (filename : String) : Except String CsvLoc :=
  if meipassHas env filename then .ok .meipassLoc
  else if env.exeDir.contains filename then .ok .exeLoc
  else if env.cwd.contains filename then .ok .cwdLoc
  else .error (filename ++ " not found")

/-- The module-level load of app.py lines 33-36: read `siem_alerts.csv`,
and on `FileNotFoundError` fall back to `siem_features.csv`; a failure of
the fallback propagates as an unhandled raised error. -/
def load_input (env : FileEnv) : Except String (String × CsvLoc) :=
  match get_csv_path env "siem_alerts.csv" with
  | .ok l => .ok ("siem_alerts.csv", l)
  | .error _ =>
    match get_csv_path env "siem_features.csv" with
    | .ok l => .ok ("siem_features.csv", l)
    | .error e => .error e

/-- A raw cell of the `risk_score` column as pandas delivers it: a numeric
value (a missing field is read as NaN, i.e. `num .nan`) or a string. -/
inductive Cell where
  | num (x : PyFloat)
  | str (s : String)
deriving DecidableEq

/-- Conversion of one cell by `Series.astype(float)`: floats pass through,
strings are parsed with `float()`, and an unparseable string raises
`ValueError` (the `.error` case). -/
def cell_to_float : Cell → Except String PyFloat
  | .num x => .ok x
  | .str s =>
    match pyFloatOfString s with
    | some x => .ok x
    | none => .error ("could not convert string to float: " ++ s)

/-- `df["risk_score"].astype(float)` (app.py line 84): the whole column is
converted; the first unparseable cell aborts the conversion. -/
def astype_float (col : List Cell) : Except String (List PyFloat) :=
  col.mapM cell_to_float

/-- The classification pipeline of app.py lines 84-85: cast the column to
float, then apply `compute_risk_level` to each value. An exception from the
cast propagates (the module has no handler around these lines). -/
def load_scores (col : List Cell) : Except String (List (PyFloat × String)) :=
  (astype_float col).map (fun fs => fs.map (fun x => (x, compute_risk_level (.num x))))

/-- `df.sample(frac=1)` (app.py line 183): pandas draws a permutation of
the row positions; `order` is that permutation. -/
def sample_frac1 {α : Type} (rows : List α) (order : List ℕ) : List α :=
  order.filterMap (fun i => rows.get? i)

/-- `reset_index(drop=True)` (app.py line 183): relabel the index with the
consecutive positions 0..n-1. -/
def reset_index {α : Type} (rows : List α) : List (ℕ × α) :=
  (List.range rows.length).zip rows

/-- `df_view` (app.py line 183): the shuffled copy of the loaded table with
a fresh consecutive index. -/
def df_view {α : Type} (rows : List α) (order : List ℕ) : List (ℕ × α) :=
  reset_index (sample_frac1 rows order)

/-- Executable substring test, used to state that an error message lists a
column name. -/
def strContains (s pat : String) : Bool :=
  (List.range (s.toList.length + 1)).any
    (fun i => (s.toList.drop i).take pat.toList.length == pat.toList)

/-! ### Helper lemmas -/

lemma mkRat_70 : mkRat 70 100 = (0.70 : ℚ) := by
  norm_num [mkRat, Rat.normalize]

lemma mkRat_45 : mkRat 45 100 = (0.45 : ℚ) := by
  norm_num [mkRat, Rat.normalize]

lemma mkRat_75 : mkRat 75 100 = (0.75 : ℚ) := by
  norm_num [mkRat, Rat.normalize]

lemma classify_finite (q : ℚ) :
    compute_risk_level (.num (.finite q)) =
      if 0.70 ≤ q then "HIGH" else if 0.45 ≤ q then "MEDIUM" else "LOW" := by
  simp only [compute_risk_level, pyFloat?, PyFloat.ge, mkRat_70, mkRat_45,
    decide_eq_true_eq]

lemma classify_finite_HIGH (q : ℚ) :
    compute_risk_level (.num (.finite q)) = "HIGH" ↔ 0.70 ≤ q := by
  rw [classify_finite]
  split_ifs with h1 h2
  · exact ⟨fun _ => h1, fun _ => rfl⟩
  · exact ⟨fun h => absurd h (by decide), fun h => absurd h h1⟩
  · exact ⟨fun h => absurd h (by decide), fun h => absurd h h1⟩

lemma classify_finite_MEDIUM (q : ℚ) :
    compute_risk_level (.num (.finite q)) = "MEDIUM" ↔ 0.45 ≤ q ∧ q < 0.70 := by
  rw [classify_finite]
  split_ifs with h1 h2
  · exact ⟨fun h => absurd h (by decide), fun h => absurd h1 (not_le.mpr h.2)⟩
  · exact ⟨fun _ => ⟨h2, not_le.mp h1⟩, fun _ => rfl⟩
  · exact ⟨fun h => absurd h (by decide), fun h => absurd h.1 h2⟩

lemma classify_finite_LOW (q : ℚ) :
    compute_risk_level (.num (.finite q)) = "LOW" ↔ q < 0.45 := by
  rw [classify_finite]
  split_ifs with h1 h2
  · refine ⟨fun h => absurd h (by decide), fun h => absurd h1 ?_⟩
    exact not_le.mpr (h.trans (by norm_num))
  · exact ⟨fun h => absurd h (by decide), fun h => absurd h2 (not_le.mpr h)⟩
  · exact ⟨fun _ => not_le.mp h2, fun _ => rfl⟩

lemma classify_total (v : PyVal) :
    compute_risk_level v = "LOW" ∨ compute_risk_level v = "MEDIUM" ∨
      compute_risk_level v = "HIGH" := by
  unfold compute_risk_level
  cases pyFloat? v with
  | none => simp
  | some x =>
    dsimp only
    split_ifs <;> simp

/-! ### Claims -/

/-- C1: for every score s, `compute_risk_level` returns "HIGH" iff
s ≥ 0.70, "MEDIUM" iff 0.45 ≤ s < 0.70, and "LOW" iff s < 0.45 (for a
numeric score) or s is non-numeric (a string `float()` rejects). -/
theorem C1_classifier_bands :
    (∀ q : ℚ,
      (compute_risk_level (.num (.finite q)) = "HIGH" ↔ 0.70 ≤ q) ∧
      (compute_risk_level (.num (.finite q)) = "MEDIUM" ↔ 0.45 ≤ q ∧ q < 0.70) ∧
      (compute_risk_level (.num (.finite q)) = "LOW" ↔ q < 0.45)) ∧
    (∀ s : String, pyFloatOfString s = none → compute_risk_level (.str s) = "LOW") := by
  constructor
  · exact fun q => ⟨classify_finite_HIGH q, classify_finite_MEDIUM q, classify_finite_LOW q⟩
  · intro s hs
    simp [compute_risk_level, pyFloat?, hs]

/-- Witness for C1 at the concrete inputs 1 and "abc". -/
theorem C1_classifier_bands_witness :
    compute_risk_level (.num (.finite 1)) = "HIGH" ∧
    compute_risk_level (.str "abc") = "LOW" :=
  ⟨((C1_classifier_bands.1 1).1).mpr (by norm_num),
   C1_classifier_bands.2 "abc" (by decide)⟩

/-- C2 evaluation at the failing input: a row whose risk_score is the
non-numeric string "abc" aborts the whole load inside
`df["risk_score"].astype(float)` (line 84) before `compute_risk_level` and
its defensive try/except are ever reached, contradicting the claim that
such a row degrades to the LOW tier; a missing value (NaN) on the other
hand does complete the load at the LOW tier. -/
theorem C2_astype_abort_eval :
    load_scores [Cell.num (.finite (mkRat 91 100)), Cell.str "abc"] =
      .error "could not convert string to float: abc" ∧
    load_scores [Cell.num (.finite (mkRat 91 100)), Cell.num .nan] =
      .ok [(.finite (mkRat 91 100), "HIGH"), (.nan, "LOW")] :=
  ⟨rfl, rfl⟩

/-- C3 counterexample: at score 0.72 the classifier says "HIGH" but
`ml_explanation` returns the medium-band list, because its upper threshold
is 0.75 (line 101) while the classifier uses 0.70 (line 78). -/
theorem C3_threshold_counterexample :
    compute_risk_level (.num (.finite (mkRat 72 100))) = "HIGH" ∧
    ml_explanation (.finite (mkRat 72 100)) =
      ["Suspicious behavior detected", "Moderate anomaly score"] ∧
    ml_explanation (.finite (mkRat 72 100)) ≠
      ["Strong privilege escalation signal",
       "Off-hours administrative activity",
       "Multiple failed authentication attempts"] := by
  refine ⟨by decide, by decide, by decide⟩

lemma explanation_finite (q : ℚ) :
    ml_explanation (.finite q) =
      if 0.75 ≤ q then
        ["Strong privilege escalation signal",
         "Off-hours administrative activity",
         "Multiple failed authentication attempts"]
      else if 0.45 ≤ q then
        ["Suspicious behavior detected", "Moderate anomaly score"]
      else ["Low-confidence anomaly", "Likely benign activity"] := by
  simp only [ml_explanation, PyFloat.ge, mkRat_75, mkRat_45, decide_eq_true_eq]

/-- C3 amended: `ml_explanation` returns the high-band list iff s ≥ 0.75
(not 0.70), the medium-band list iff 0.45 ≤ s < 0.75, and the low-band
list iff s < 0.45, which coincides with `compute_risk_level` = "LOW"; so
the two functions agree on the low band but split high/medium at 0.75
rather than the classifier's 0.70. -/
theorem C3_explanation_bands_amended :
    ∀ q : ℚ,
      (ml_explanation (.finite q) =
        ["Strong privilege escalation signal",
         "Off-hours administrative activity",
         "Multiple failed authentication attempts"] ↔ 0.75 ≤ q) ∧
      (ml_explanation (.finite q) =
        ["Suspicious behavior detected", "Moderate anomaly score"] ↔
          0.45 ≤ q ∧ q < 0.75) ∧
      (ml_explanation (.finite q) =
        ["Low-confidence anomaly", "Likely benign activity"] ↔ q < 0.45) ∧
      (q < 0.45 ↔ compute_risk_level (.num (.finite q)) = "LOW") := by
  intro q
  refine ⟨?_, ?_, ?_, (classify_finite_LOW q).symm⟩ <;> rw [explanation_finite] <;>
    split_ifs with h1 h2
  · exact ⟨fun _ => h1, fun _ => rfl⟩
  · exact ⟨fun h => absurd h (by decide), fun h => absurd h h1⟩
  · exact ⟨fun h => absurd h (by decide), fun h => absurd h h1⟩
  · exact ⟨fun h => absurd h (by decide), fun h => absurd h1 (not_le.mpr h.2)⟩
  · exact ⟨fun _ => ⟨h2, not_le.mp h1⟩, fun _ => rfl⟩
  · exact ⟨fun h => absurd h (by decide), fun h => absurd h.1 h2⟩
  · refine ⟨fun h => absurd h (by decide), fun h => absurd h1 ?_⟩
    exact not_le.mpr (h.trans (by norm_num))
  · exact ⟨fun h => absurd h (by decide), fun h => absurd h2 (not_le.mpr h)⟩
  · exact ⟨fun _ => not_le.mp h2, fun _ => rfl⟩

/-- C9 counterexample: `compute_risk_level` is not idempotent: at score
0.8 it returns "HIGH", and re-classifying that output (the string "HIGH",
which `float()` rejects) yields "LOW". -/
theorem C9_idempotence_counterexample :
    compute_risk_level (.num (.finite (mkRat 8 10))) = "HIGH" ∧
    compute_risk_level (.str (compute_risk_level (.num (.finite (mkRat 8 10))))) =
      "LOW" ∧
    ("LOW" : String) ≠ "HIGH" := by
  refine ⟨by decide, by decide, by decide⟩

/-- C9 amended: `compute_risk_level` is total — it returns one of
"LOW"/"MEDIUM"/"HIGH" on every input and never fails — but re-classifying
its output always yields "LOW" (none of the three tier strings parses as a
float), so classify ∘ classify = classify holds exactly on the inputs
classified "LOW". -/
theorem C9_total_and_reclassify :
    (∀ v : PyVal, compute_risk_level v = "LOW" ∨ compute_risk_level v = "MEDIUM" ∨
      compute_risk_level v = "HIGH") ∧
    (∀ v : PyVal, compute_risk_level (.str (compute_risk_level v)) = "LOW") ∧
    (∀ v : PyVal,
      compute_risk_level (.str (compute_risk_level v)) = compute_risk_level v ↔
        compute_risk_level v = "LOW") := by
  have hre : ∀ v : PyVal, compute_risk_level (.str (compute_risk_level v)) = "LOW" := by
    intro v
    rcases classify_total v with h | h | h <;> rw [h] <;> decide
  refine ⟨classify_total, hre, ?_⟩
  intro v
  constructor
  · intro he
    rw [hre v] at he
    exact he.symm
  · intro h
    rw [hre v, h]

lemma found_risk_col_spec (cols : List String) :
    found_risk_col cols =
      if "risk_score" ∈ cols then some "risk_score"
      else if "risk" ∈ cols then some "risk"
      else if "score" ∈ cols then some "score"
      else if "anomaly_score" ∈ cols then some "anomaly_score"
      else if "severity_score" ∈ cols then some "severity_score"
      else none := by
  unfold found_risk_col RISK_ALIASES
  by_cases h1 : "risk_score" ∈ cols <;> by_cases h2 : "risk" ∈ cols <;>
    by_cases h3 : "score" ∈ cols <;> by_cases h4 : "anomaly_score" ∈ cols <;>
    by_cases h5 : "severity_score" ∈ cols <;>
    simp [List.find?, h1, h2, h3, h4, h5]

lemma mem_rename_risk (cols : List String) (a : String) (ha : a ∈ cols) :
    "risk_score" ∈ rename_risk cols a :=
  List.mem_map.mpr ⟨a, ha, by simp⟩

/-- C4: the normalizer binds the risk-score column to the first alias
present in the priority order `RISK_ALIASES` (a bound alias is in the
table, and no alias earlier in the priority list is eligible), renames it
to "risk_score", and in particular a table containing both "risk" and
"score" (and no earlier alias) binds to "risk". -/
theorem C4_alias_priority :
    (∀ cols a, found_risk_col cols = some a →
      a ∈ RISK_ALIASES ∧ a ∈ cols ∧
      (∀ b ∈ RISK_ALIASES, b ∈ cols →
        RISK_ALIASES.indexOf a ≤ RISK_ALIASES.indexOf b) ∧
      "risk_score" ∈ rename_risk cols a) ∧
    found_risk_col ["alert_type", "user", "destination_host", "risk", "score"] =
      some "risk" := by
  constructor
  · intro cols a h
    rw [found_risk_col_spec] at h
    split_ifs at h with h1 h2 h3 h4 h5 <;> cases h
    · refine ⟨by decide, h1, ?_, mem_rename_risk cols _ h1⟩
      intro b hb hbc
      fin_cases hb <;> decide
    · refine ⟨by decide, h2, ?_, mem_rename_risk cols _ h2⟩
      intro b hb hbc
      fin_cases hb
      · exact absurd hbc h1
      all_goals decide
    · refine ⟨by decide, h3, ?_, mem_rename_risk cols _ h3⟩
      intro b hb hbc
      fin_cases hb
      · exact absurd hbc h1
      · exact absurd hbc h2
      all_goals decide
    · refine ⟨by decide, h4, ?_, mem_rename_risk cols _ h4⟩
      intro b hb hbc
      fin_cases hb
      · exact absurd hbc h1
      · exact absurd hbc h2
      · exact absurd hbc h3
      all_goals decide
    · refine ⟨by decide, h5, ?_, mem_rename_risk cols _ h5⟩
      intro b hb hbc
      fin_cases hb
      · exact absurd hbc h1
      · exact absurd hbc h2
      · exact absurd hbc h3
      · exact absurd hbc h4
      all_goals decide
  · decide

/-- Witness for C4 at a table holding both "risk" and "score". -/
theorem C4_alias_priority_witness :
    "risk" ∈ ["alert_type", "user", "destination_host", "risk", "score"] ∧
    RISK_ALIASES.indexOf "risk" ≤ RISK_ALIASES.indexOf "score" ∧
    "risk_score" ∈
      rename_risk ["alert_type", "user", "destination_host", "risk", "score"] "risk" := by
  obtain ⟨-, hmem, hmin, hren⟩ :=
    C4_alias_priority.1 ["alert_type", "user", "destination_host", "risk", "score"]
      "risk" (by decide)
  exact ⟨hmem, hmin "score" (by decide) (by decide), hren⟩

/-- C5: when the table contains none of the five risk-score aliases, the
load shows a blocking "CSV Error" dialog whose message lists all five
alias names and the process exits with status 1. -/
theorem C5_no_alias_abort :
    ∀ cols, found_risk_col cols = none →
      schema_normalize cols =
        .errorDialog "CSV Error"
          "No risk score column found.\n\nExpected one of:\nrisk_score, risk, score, anomaly_score, severity_score"
          1 ∧
      ∀ a ∈ RISK_ALIASES,
        strContains
          "No risk score column found.\n\nExpected one of:\nrisk_score, risk, score, anomaly_score, severity_score"
          a = true := by
  intro cols h
  refine ⟨?_, by decide⟩
  unfold schema_normalize
  rw [h]
  rfl

/-- Witness for C5 at a table with no alias column. -/
theorem C5_no_alias_abort_witness :
    schema_normalize ["alert_type", "user", "destination_host"] =
      .errorDialog "CSV Error"
        "No risk score column found.\n\nExpected one of:\nrisk_score, risk, score, anomaly_score, severity_score"
        1 ∧
    strContains
      "No risk score column found.\n\nExpected one of:\nrisk_score, risk, score, anomaly_score, severity_score"
      "severity_score" = true := by
  obtain ⟨h1, h2⟩ :=
    C5_no_alias_abort ["alert_type", "user", "destination_host"] (by decide)
  exact ⟨h1, h2 "severity_score" (by decide)⟩

/-- C6: after the risk column is renamed, the load aborts with a "CSV
Error" dialog listing exactly the missing ones of the required columns and
exits with status 1 when any are missing, and continues with the renamed
columns when none are; the missing list can only draw from
{alert_type, user, destination_host}, since "risk_score" is always present
after the rename. -/
theorem C6_required_columns :
    ∀ cols a, found_risk_col cols = some a →
      (required_cols.filter (fun c => !(rename_risk cols a).contains c) = [] →
        schema_normalize cols = .ok (rename_risk cols a)) ∧
      (required_cols.filter (fun c => !(rename_risk cols a).contains c) ≠ [] →
        schema_normalize cols =
          .errorDialog "CSV Error"
            ("Missing required columns:\n" ++ String.intercalate ", "
              (required_cols.filter (fun c => !(rename_risk cols a).contains c))) 1) ∧
      required_cols.filter (fun c => !(rename_risk cols a).contains c) =
        ["alert_type", "user", "destination_host"].filter
          (fun c => !(rename_risk cols a).contains c) := by
  intro cols a h
  have hmem : a ∈ cols := by
    rw [found_risk_col_spec] at h
    split_ifs at h with h1 h2 h3 h4 h5 <;> cases h <;> assumption
  have hrs : "risk_score" ∈ rename_risk cols a := mem_rename_risk cols a hmem
  refine ⟨?_, ?_, ?_⟩
  · intro hnil
    unfold schema_normalize
    rw [h]
    simp only [hnil, List.isEmpty_nil, if_true]
  · intro hne
    unfold schema_normalize
    rw [h]
    have : (required_cols.filter (fun c => !(rename_risk cols a).contains c)).isEmpty =
        false := by
      rcases hcase : required_cols.filter (fun c => !(rename_risk cols a).contains c) with
        _ | ⟨x, xs⟩
      · exact absurd hcase hne
      · rfl
    simp only [this]
    simp
  · show List.filter _ (["alert_type", "user", "destination_host"] ++ ["risk_score"]) = _
    rw [List.filter_append]
    simp [List.filter, hrs]

/-- Witness for C6: a table missing the "user" column aborts listing
exactly "user", and a complete table passes. -/
theorem C6_required_columns_witness :
    schema_normalize ["alert_type", "destination_host", "score"] =
      .errorDialog "CSV Error" "Missing required columns:\nuser" 1 ∧
    schema_normalize ["alert_type", "user", "destination_host", "score"] =
      .ok ["alert_type", "user", "destination_host", "risk_score"] := by
  constructor
  · have h :=
      (C6_required_columns ["alert_type", "destination_host", "score"] "score"
        (by decide)).2.1 (by decide)
    exact h.trans (by decide)
  · have h :=
      (C6_required_columns ["alert_type", "user", "destination_host", "score"] "score"
        (by decide)).1 (by decide)
    exact h.trans (by decide)

/-- C7: `get_csv_path` resolves a filename through the fallback order
bundled resource directory, executable directory, current working
directory, raising a file-not-found error when absent from all three; the
load tries the primary name "siem_alerts.csv" this way, falls back to the
secondary name "siem_features.csv" on failure, and when both are absent
everywhere the raised error propagates unhandled (no dialog). -/
theorem C7_file_search_fallback :
    ∀ env : FileEnv,
      (∀ f, meipassHas env f = true → get_csv_path env f = .ok .meipassLoc) ∧
      (∀ f, meipassHas env f = false → env.exeDir.contains f = true →
        get_csv_path env f = .ok .exeLoc) ∧
      (∀ f, meipassHas env f = false → env.exeDir.contains f = false →
        env.cwd.contains f = true → get_csv_path env f = .ok .cwdLoc) ∧
      (∀ f, meipassHas env f = false → env.exeDir.contains f = false →
        env.cwd.contains f = false → get_csv_path env f = .error (f ++ " not found")) ∧
      (∀ l, get_csv_path env "siem_alerts.csv" = .ok l →
        load_input env = .ok ("siem_alerts.csv", l)) ∧
      (∀ e l, get_csv_path env "siem_alerts.csv" = .error e →
        get_csv_path env "siem_features.csv" = .ok l →
        load_input env = .ok ("siem_features.csv", l)) ∧
      (∀ e e2, get_csv_path env "siem_alerts.csv" = .error e →
        get_csv_path env "siem_features.csv" = .error e2 →
        load_input env = .error e2) := by
  intro env
  refine ⟨?_, ?_, ?_, ?_, ?_, ?_, ?_⟩
  · intro f h1
    simp [get_csv_path, h1]
  · intro f h1 h2
    have h2m : f ∈ env.exeDir := by simpa using h2
    simp [get_csv_path, h1, h2m]
  · intro f h1 h2 h3
    have h2m : f ∉ env.exeDir := by simpa using h2
    have h3m : f ∈ env.cwd := by simpa using h3
    simp [get_csv_path, h1, h2m, h3m]
  · intro f h1 h2 h3
    have h2m : f ∉ env.exeDir := by simpa using h2
    have h3m : f ∉ env.cwd := by simpa using h3
    simp [get_csv_path, h1, h2m, h3m]
  · intro l h1
    simp [load_input, h1]
  · intro e l h1 h2
    simp [load_input, h1, h2]
  · intro e e2 h1 h2
    simp [load_input, h1, h2]

/-- Witness for C7: with both filenames absent from every location the
load raises the file-not-found error of the secondary filename. -/
theorem C7_file_search_fallback_witness :
    load_input ⟨none, [], []⟩ = .error "siem_features.csv not found" :=
  (C7_file_search_fallback ⟨none, [], []⟩).2.2.2.2.2.2
    "siem_alerts.csv not found" "siem_features.csv not found" rfl rfl

/-- C8: the knowledge lookup maps "PRIV_ESC" to
("Privilege Escalation", "T1068") and every code outside the fixed map to
the default ("Unknown", "N/A"). -/
theorem C8_mitre_lookup_defaults :
    mitre_lookup "PRIV_ESC" = ("Privilege Escalation", "T1068") ∧
    mitre_lookup "UNKNOWN_CODE" = ("Unknown", "N/A") ∧
    ∀ code, (∀ e ∈ MITRE_MAP, e.1 ≠ code) → mitre_lookup code = ("Unknown", "N/A") := by
  refine ⟨by decide, by decide, ?_⟩
  intro code h
  unfold mitre_lookup
  rw [List.find?_eq_none.mpr]
  intro e he
  simp [h e he]

/-- Witness for C8 at a fresh unrecognized code. -/
theorem C8_mitre_lookup_defaults_witness :
    mitre_lookup "NEW_CODE" = ("Unknown", "N/A") :=
  C8_mitre_lookup_defaults.2.2 "NEW_CODE" (by decide)

lemma filterMap_get_range {α : Type} (l : List α) :
    (List.range l.length).filterMap (fun i => l.get? i) = l := by
  induction l with
  | nil => rfl
  | cons a tl ih =>
    rw [List.length_cons, List.range_succ_eq_map, List.filterMap_cons]
    have hcomp : ((fun i => (a :: tl).get? i) ∘ Nat.succ) = fun i => tl.get? i := rfl
    rw [List.filterMap_map, hcomp, ih]
    rfl

/-- C10: for any permutation `order` of the row positions (the draw of
`df.sample(frac=1)`), the displayed view is a row permutation of the
loaded table: `sample_frac1` yields the same multiset of records, the
fresh index of `df_view` is exactly 0..n-1, the record at each relabelled
position is the sampled record, and any severity filter over the view
selects only loaded records. -/
theorem C10_view_is_permutation {α : Type} (rows : List α) (order : List ℕ)
    (h : order.Perm (List.range rows.length)) :
    (sample_frac1 rows order).Perm rows ∧
    (df_view rows order).map Prod.fst = List.range rows.length ∧
    (df_view rows order).map Prod.snd = sample_frac1 rows order ∧
    ∀ (p : α → Bool) (x : α), x ∈ (sample_frac1 rows order).filter p → x ∈ rows := by
  have hperm : (sample_frac1 rows order).Perm rows := by
    have hfm := h.filterMap (fun i => rows.get? i)
    rwa [filterMap_get_range] at hfm
  have hlen : (sample_frac1 rows order).length = rows.length := hperm.length_eq
  refine ⟨hperm, ?_, ?_, ?_⟩
  · unfold df_view reset_index
    rw [List.map_fst_zip _ _ (by simp), hlen]
  · unfold df_view reset_index
    rw [List.map_snd_zip _ _ (by simp)]
  · intro p x hx
    exact hperm.mem_iff.mp (List.mem_of_mem_filter hx)

/-- Witness for C10 at a concrete three-row table and shuffle order. -/
theorem C10_view_is_permutation_witness :
    (sample_frac1 ["alpha", "beta", "gamma"] [2, 0, 1]).Perm
      ["alpha", "beta", "gamma"] ∧
    (df_view ["alpha", "beta", "gamma"] [2, 0, 1]).map Prod.fst =
      List.range 3 := by
  obtain ⟨h1, h2, -, -⟩ :=
    C10_view_is_permutation ["alpha", "beta", "gamma"] [2, 0, 1] (by decide)
  exact ⟨h1, h2⟩

end SiemApp
